import Mathlib

/-!
Shallow embedding of `cyton_impedance_check.py` (class `ImpedanceCheck`) and
of the duplicated script `cyton_impedance_check.py.py`, restricted to the
pure data and state-transition content: channel configurations, the Cyton
ASCII command builders, the lead-off enable/disable state machine on the
per-channel configuration arrays, the RMS estimators, and the impedance
formula.  Board I/O (`config_board`, streaming, sleeps) carries no state
relevant to the claims beyond the command strings produced, which we model
explicitly.
-/

namespace Cyton

/-- A Cyton channel configuration, mirroring the dicts
`STREAM_CFG_DEFAULT` / `IMP_CFG` in `ImpedanceCheck.__init__`
(keys `gain`, `input_type`, `bias`, `srb2`, `srb1`). -/
structure ChannelConfig where
  gain : Nat
  input_type : Nat
  bias : Nat
  srb2 : Nat
  srb1 : Nat
deriving DecidableEq, Repr

/-- `self.STREAM_CFG_DEFAULT = dict(gain=6, input_type=0, bias=1, srb2=1, srb1=0)` -/
def STREAM_CFG_DEFAULT : ChannelConfig := ⟨6, 0, 1, 1, 0⟩

/-- `self.IMP_CFG = dict(gain=0, input_type=0, bias=1, srb2=0, srb1=0)` -/
def IMP_CFG : ChannelConfig := ⟨0, 0, 1, 0, 0⟩

/-- The mutable per-channel state of an `ImpedanceCheck` object:
`self._ch_cfg` (current configuration per channel) and
`self._ch_last_cfg` (saved prior configuration, `None` when not in
lead-off mode).  Python `.copy()` on the dicts gives value semantics,
which plain Lean values already have. -/
structure ImpedanceCheck where
  ch_cfg : List ChannelConfig
  ch_last_cfg : List (Option ChannelConfig)
deriving DecidableEq, Repr

/-- `__init__`: `self._ch_cfg = [self.STREAM_CFG_DEFAULT.copy() for _ in range(8)]`,
`self._ch_last_cfg = [None for _ in range(8)]`. -/
def initImpedanceCheck : ImpedanceCheck :=
  ⟨List.replicate 8 STREAM_CFG_DEFAULT, List.replicate 8 none⟩

/-- `build_channel_settings_cmd(self, ch, gain, input_type, bias, srb2, srb1, power_down=0)`:
returns `f"x{ch}{power_down}{gain}{input_type}{bias}{srb2}{srb1}X"`.
No argument validation is performed in the source; the f-string renders
whatever integers are passed. -/
def build_channel_settings_cmd (ch gain input_type bias srb2 srb1 power_down : Nat) : String :=
  "x" ++ Nat.repr ch ++ Nat.repr power_down ++ Nat.repr gain ++ Nat.repr input_type
      ++ Nat.repr bias ++ Nat.repr srb2 ++ Nat.repr srb1 ++ "X"

/-- `build_impedance_cmd(self, ch, active, is_n)`: `p = "0"; n = "0";
if active: (n = "1" if is_n else p = "1")`; returns `f"z{ch}{p}{n}Z"`. -/
def build_impedance_cmd (ch : Nat) (active : Bool) (is_n : Bool) : String :=
  let pn : String × String :=
    if active then (if is_n then ("0", "1") else ("1", "0")) else ("0", "0")
  "z" ++ Nat.repr ch ++ pn.1 ++ pn.2 ++ "Z"

/-- `change_leadoff(self, ch, is_on)` (state effect plus the command string
sent to `board.config_board`).  `ch_idx = ch - 1`; on enable the current
config is saved into `_ch_last_cfg[ch_idx]` and `_ch_cfg[ch_idx]` becomes
`IMP_CFG`; on disable, `_ch_cfg[ch_idx]` is restored from
`_ch_last_cfg[ch_idx]` when present (clearing it), else reset to
`STREAM_CFG_DEFAULT`.  The combined command is
`build_channel_settings_cmd(...) + build_impedance_cmd(ch, is_on, is_n=True)`.
List indexing is modelled with `getD`; the defaults are reached only for an
out-of-range `ch`, which in Python would raise `IndexError` and which no
claim exercises. -/
def change_leadoff (st : ImpedanceCheck) (ch : Nat) (is_on : Bool) :
    ImpedanceCheck × String :=
  let ch_idx := ch - 1
  let st' : ImpedanceCheck :=
    if is_on then
      { ch_cfg := st.ch_cfg.set ch_idx IMP_CFG,
        ch_last_cfg :=
          st.ch_last_cfg.set ch_idx (some (st.ch_cfg.getD ch_idx STREAM_CFG_DEFAULT)) }
    else
      match st.ch_last_cfg.getD ch_idx none with
      | some prev =>
          { ch_cfg := st.ch_cfg.set ch_idx prev,
            ch_last_cfg := st.ch_last_cfg.set ch_idx none }
      | none =>
          { ch_cfg := st.ch_cfg.set ch_idx STREAM_CFG_DEFAULT,
            ch_last_cfg := st.ch_last_cfg }
  let cfg := st'.ch_cfg.getD ch_idx STREAM_CFG_DEFAULT
  let x_cmd := build_channel_settings_cmd ch cfg.gain cfg.input_type cfg.bias
      cfg.srb2 cfg.srb1 0
  let z_cmd := build_impedance_cmd ch is_on true
  (st', x_cmd ++ z_cmd)

/-- `SERIES_R = 2200.0` (series resistor on the Cyton board, ohms). -/
def SERIES_R : ℝ := 2200

/-- `I_DRIVE = 6.0e-9` (lead-off drive current, amperes). -/
def I_DRIVE : ℝ := 6.0e-9

/-- `calc_impedance_from_vrms(self, vrms_uV)`:
`Vrms_V = vrms_uV * 1e-6; Z = (np.sqrt(2.0) * Vrms_V) / I_DRIVE;
Z -= SERIES_R; return max(Z, 0.0)`.  Real-valued model of the float
computation. -/
noncomputable def calc_impedance_from_vrms (vrms_uV : ℝ) : ℝ :=
  let vrms_V := vrms_uV * 1e-6
  let z := (Real.sqrt 2 * vrms_V) / I_DRIVE
  max (z - SERIES_R) 0

/-- The trailing-window slice `x[-n:]` of Python on a list, for `n = fs`:
for `0 < n` it keeps the last `min n (length x)` elements; for `n = 0`,
`x[-0:]` is `x[0:]`, the whole list. -/
def recent_slice (x : List ℝ) (n : Nat) : List ℝ :=
  if n = 0 then x else x.drop (x.length - n)

/-- `take_recent_1s(self, x_uV, fs)` of the class file:
`n = int(fs * 1.0); seg = x_uV[-n:]; return sqrt(mean(seg ** 2))`. -/
noncomputable def take_recent_1s (x_uV : List ℝ) (fs : Nat) : ℝ :=
  let seg := recent_slice x_uV fs
  Real.sqrt (((seg.map (fun v => v ^ 2)).sum) / seg.length)

/-- Per-channel impedance values are floats that may be NaN/Inf; the source
branches on `np.isfinite`.  We model just the finiteness structure of a
float value, with finite values carried as reals. -/
inductive PFloat where
  | fin (x : ℝ)
  | nan
  | inf
  | ninf

/-- `np.isfinite` on the modelled float. -/
def PFloat.isfinite : PFloat → Bool
  | .fin _ => true
  | _ => false

/-- The tail of `ImpedanceCheck.check_impedance` after the RMS estimate
`uVrms` is available:
`z_ohm = self.calc_impedance_from_vrms(uVrms) if np.isfinite(uVrms) else
float(nan); return z_ohm / 1000.0` (nan spelled as a float literal in the source). -/
noncomputable def check_impedance_result (uVrms : PFloat) : PFloat :=
  let z_ohm : PFloat :=
    if uVrms.isfinite then
      match uVrms with
      | .fin x => .fin (calc_impedance_from_vrms x)
      | v => v
    else .nan
  match z_ohm with
  | .fin z => .fin (z / 1000)
  | v => v

/-- Error vocabulary of the spec relevant to the embedded claims. -/
inductive SPError where
  | insufficientSamples
deriving DecidableEq, Repr

/-- `bandpass_apply` builds a 4th-order Butterworth band-pass with
`iirfilter(4, ...)`; the returned coefficient arrays `b`, `a` each have
`2 * 4 + 1 = 9` taps. -/
def filt_taps : Nat := 2 * 4 + 1

/-- The default edge padding of `scipy.signal.filtfilt`,
`padlen = 3 * max(len(a), len(b))`, below which it rejects the input. -/
def filt_padlen : Nat := 3 * filt_taps

/-- The length precondition `bandpass_apply(self, x, fs)` enforces through
its call `filtfilt(b, a, x)`: with the default `padlen`, `filtfilt` raises
`ValueError` ("The length of the input vector x must be greater than
padlen") whenever `len(x) <= padlen`, and only filters longer inputs.
We model the enforced gate; the numeric filter output is irrelevant to the
length-precondition claim. -/
def bandpass_check (x : List ℝ) : Except SPError Unit :=
  if x.length ≤ filt_padlen then .error .insufficientSamples else .ok ()

end Cyton

namespace CytonScript

/-!
The duplicated script `cyton_impedance_check.py.py` (module-level
functions, no configuration tracking). Only the definitions that differ
from the class file, or that the sequencing claim needs, are embedded.
-/

/-- `take_recent_1s(x_uV, fs)` of the script file:
`n = int(fs * 1.0); seg = x_uV[-n:]; return float(np.std(seg, ddof=0))` —
population standard deviation of the window (mean-removed RMS). -/
noncomputable def take_recent_1s (x_uV : List ℝ) (fs : Nat) : ℝ :=
  let seg := Cyton.recent_slice x_uV fs
  let m := seg.sum / seg.length
  Real.sqrt (((seg.map (fun v => (v - m) ^ 2)).sum) / seg.length)

/-- A lead-off command event `send_leadoff(board, ch, p_apply, n_apply)`:
channel plus the `p`/`n` flags. -/
structure LeadOffEvent where
  ch : Nat
  p : Nat
  n : Nat
deriving DecidableEq, Repr

/-- The sequence of `send_leadoff` events issued by
`check_impedance(channels)`: for each channel, first
`send_leadoff(board, ch, 0, 1)` (enable, N-side), then — after the
measurement — `send_leadoff(board, ch, 0, 0)` (disable), before the next
iteration of the next channel begins. -/
def leadoff_events : List Nat → List LeadOffEvent
  | [] => []
  | ch :: rest => ⟨ch, 0, 1⟩ :: ⟨ch, 0, 0⟩ :: leadoff_events rest

/-- The set of channels whose lead-off current is active after a prefix of
events: `z{ch}01Z` activates `ch` (N-side), `z{ch}00Z` deactivates it. -/
def activeAfter (evs : List LeadOffEvent) : List Nat :=
  evs.foldl
    (fun acc e =>
      if e.p = 0 ∧ e.n = 0 then acc.filter (fun c => c ≠ e.ch)
      else if e.ch ∈ acc then acc else acc ++ [e.ch])
    []

end CytonScript

namespace Cyton

/-- A full multi-channel measurement run over the class-based tracker:
`check_impedance(ch)` touches the configuration state exactly through
`change_leadoff(ch, True)` followed by `change_leadoff(ch, False)`
(`reset_to_defaults` and the streaming calls do not read or write
`_ch_cfg`/`_ch_last_cfg`).  `run_states cs st` is the trace of tracker
states: the state before any command, then the state after each
`change_leadoff` call, channel by channel. -/
def run_states : List Nat → ImpedanceCheck → List ImpedanceCheck
  | [], st => [st]
  | ch :: rest, st =>
      let st1 := (change_leadoff st ch true).1
      let st2 := (change_leadoff st1 ch false).1
      st :: st1 :: run_states rest st2

/-- The sequence of combined config + lead-off command strings sent during
the same run, in send order. -/
def run_commands : List Nat → ImpedanceCheck → List String
  | [], _ => []
  | ch :: rest, st =>
      let p1 := change_leadoff st ch true
      let p2 := change_leadoff p1.1 ch false
      p1.2 :: p2.2 :: run_commands rest p2.1

/-- Number of channels currently in lead-off mode: entries of
`_ch_last_cfg` that are not `None` (the saved slot is populated exactly
while the channel is in impedance-measurement mode). -/
def countActive (st : ImpedanceCheck) : Nat :=
  (st.ch_last_cfg.filter Option.isSome).length

/-- The eight channels measured by a full run. -/
def allChannels : List Nat := [1, 2, 3, 4, 5, 6, 7, 8]

end Cyton

section ListHelpers

variable {α : Type u_1}

/-- Reading back the element just written by `set`. -/
theorem list_getD_set_self (l : List α) :
    ∀ (i : Nat) (a d : α), i < l.length → (l.set i a).getD i d = a := by
  induction l with
  | nil => intro i a d h; simp at h
  | cons x xs ih =>
      intro i a d h
      cases i with
      | zero => rfl
      | succ n =>
          have hn : n < xs.length := by simpa using h
          simpa [List.set, List.getD] using ih n a d hn

/-- `set` is unchanged by an unrelated earlier write at a different index. -/
theorem list_getD_set_ne (l : List α) :
    ∀ (i j : Nat) (a d : α), i ≠ j → (l.set i a).getD j d = l.getD j d := by
  induction l with
  | nil => intro i j a d _; rfl
  | cons x xs ih =>
      intro i j a d hij
      cases i with
      | zero =>
          cases j with
          | zero => exact absurd rfl hij
          | succ m => rfl
      | succ n =>
          cases j with
          | zero => rfl
          | succ m =>
              simpa [List.set, List.getD] using ih n m a d (by omega)

/-- Writing the current value of an element back leaves the list unchanged. -/
theorem list_set_getD_self (l : List α) :
    ∀ (i : Nat) (d : α), i < l.length → l.set i (l.getD i d) = l := by
  induction l with
  | nil => intro i d h; simp at h
  | cons x xs ih =>
      intro i d h
      cases i with
      | zero => rfl
      | succ n =>
          have hn : n < xs.length := by simpa using h
          simpa [List.set, List.getD] using ih n d hn

end ListHelpers

namespace Cyton

/-- State effect of `change_leadoff(ch, True)`: save the current config,
switch the channel to `IMP_CFG`. -/
theorem change_leadoff_enable_eq (st : ImpedanceCheck) (ch : Nat) :
    (change_leadoff st ch true).1
      = ⟨st.ch_cfg.set (ch - 1) IMP_CFG,
         st.ch_last_cfg.set (ch - 1)
           (some (st.ch_cfg.getD (ch - 1) STREAM_CFG_DEFAULT))⟩ := rfl

/-- State effect of `change_leadoff(ch, False)` when a saved config is
present: restore it and clear the saved slot. -/
theorem change_leadoff_disable_of_saved (st : ImpedanceCheck) (ch : Nat)
    (prev : ChannelConfig)
    (h : st.ch_last_cfg.getD (ch - 1) none = some prev) :
    (change_leadoff st ch false).1
      = ⟨st.ch_cfg.set (ch - 1) prev, st.ch_last_cfg.set (ch - 1) none⟩ := by
  simp only [change_leadoff, Bool.false_eq_true, if_false, h]

end Cyton



namespace Cyton

/-- C1: Round trip restore — for every channel `ch` in 1..8 and every
initial tracker state whose saved slot for `ch` is empty (the channel is
not already in lead-off mode, which is the only state from which an enable
begins under the `saved`-iff-active invariant of the spec),
`change_leadoff(ch, True)` followed by `change_leadoff(ch, False)` leaves
the whole tracker — the current config and saved slot of that channel included —
bit-for-bit equal to its state before the enable, with the saved slot
empty. -/
theorem leadoff_roundtrip_restores (st : ImpedanceCheck) (ch : Nat)
    (hch1 : 1 ≤ ch) (hch8 : ch ≤ 8)
    (hlc : st.ch_cfg.length = 8) (hll : st.ch_last_cfg.length = 8)
    (hsaved : st.ch_last_cfg.getD (ch - 1) none = none) :
    (change_leadoff (change_leadoff st ch true).1 ch false).1 = st ∧
    (change_leadoff (change_leadoff st ch true).1 ch false).1.ch_last_cfg.getD
        (ch - 1) none = none := by
  obtain ⟨cfg, last⟩ := st
  simp only at hlc hll hsaved
  have hidx1 : ch - 1 < cfg.length := by omega
  have hidx2 : ch - 1 < last.length := by omega
  have hget :
      ((last.set (ch - 1) (some (cfg.getD (ch - 1) STREAM_CFG_DEFAULT))).getD
        (ch - 1) none)
      = some (cfg.getD (ch - 1) STREAM_CFG_DEFAULT) :=
    list_getD_set_self _ _ _ _ hidx2
  have hmain :
      (change_leadoff (change_leadoff ⟨cfg, last⟩ ch true).1 ch false).1
        = ⟨cfg, last⟩ := by
    rw [change_leadoff_enable_eq]
    rw [change_leadoff_disable_of_saved _ _ _ hget]
    simp only [ImpedanceCheck.mk.injEq]
    constructor
    · rw [List.set_set]
      exact list_set_getD_self _ _ _ hidx1
    · rw [List.set_set]
      conv_lhs => rw [← hsaved]
      exact list_set_getD_self _ _ _ hidx2
  refine ⟨hmain, ?_⟩
  rw [hmain]
  exact hsaved

/-- Witness for C1 at the initial tracker state and channel 3. -/
theorem leadoff_roundtrip_restores_witness :
    (change_leadoff (change_leadoff initImpedanceCheck 3 true).1 3 false).1
        = initImpedanceCheck ∧
    (change_leadoff (change_leadoff initImpedanceCheck 3 true).1 3
        false).1.ch_last_cfg.getD 2 none = none :=
  leadoff_roundtrip_restores initImpedanceCheck 3 (by decide) (by decide)
    (by decide) (by decide) (by decide)

end Cyton

namespace Cyton

/-- C2: Sequencer mutual exclusion and post-run state — across a full
measurement run over channels 1..8 from the initial state, every tracker
state in the trace has at most one channel in lead-off mode (saved slot
populated); the final state equals the initial one, whose channels all
have an empty saved slot and the streaming-default current config; the
command sequence sent interleaves the disable of channel N strictly before
the enable of channel N+1 (witnessed by the explicit command list); and in
the run of the duplicated script the set of lead-off-active channels after
every prefix of `send_leadoff` events likewise never exceeds one. -/
theorem sequencer_mutual_exclusion :
    (((run_states allChannels initImpedanceCheck).map countActive).all
        (fun n => n ≤ 1) = true)
    ∧ (run_states allChannels initImpedanceCheck).getLast?
        = some initImpedanceCheck
    ∧ initImpedanceCheck.ch_cfg = List.replicate 8 STREAM_CFG_DEFAULT
    ∧ initImpedanceCheck.ch_last_cfg = List.replicate 8 none
    ∧ run_commands allChannels initImpedanceCheck =
      ["x1000100Xz101Z", "x1060110Xz100Z",
       "x2000100Xz201Z", "x2060110Xz200Z",
       "x3000100Xz301Z", "x3060110Xz300Z",
       "x4000100Xz401Z", "x4060110Xz400Z",
       "x5000100Xz501Z", "x5060110Xz500Z",
       "x6000100Xz601Z", "x6060110Xz600Z",
       "x7000100Xz701Z", "x7060110Xz700Z",
       "x8000100Xz801Z", "x8060110Xz800Z"]
    ∧ (((List.range ((CytonScript.leadoff_events allChannels).length + 1)).map
        (fun k =>
          (CytonScript.activeAfter
            ((CytonScript.leadoff_events allChannels).take k)).length)).all
        (fun n => n ≤ 1) = true) := by
  refine ⟨by decide, by decide, by decide, by decide, by decide, by decide⟩

end Cyton

namespace Cyton

/-- C3 counterexample: with the saved slot of channel 1 already populated (one
enable already performed from the initial state), a second
`change_leadoff(1, True)` does not fail — the code has no `AlreadyActive`
check — and it modifies the channel state: the tracker changes, and the
saved slot now holds the impedance config instead of the original
streaming default. -/
theorem second_enable_not_rejected :
    (change_leadoff (change_leadoff initImpedanceCheck 1 true).1 1 true).1
      ≠ (change_leadoff initImpedanceCheck 1 true).1
    ∧ (change_leadoff (change_leadoff initImpedanceCheck 1 true).1 1
        true).1.ch_last_cfg.getD 0 none = some IMP_CFG
    ∧ (change_leadoff initImpedanceCheck 1 true).1.ch_last_cfg.getD 0 none
      = some STREAM_CFG_DEFAULT := by
  refine ⟨by decide, by decide, by decide⟩

/-- C3 amended: a second `change_leadoff(ch, True)` on a channel whose
saved slot is already populated does not fail; it unconditionally
overwrites the saved slot with the current configuration of the channel (the
impedance config, if the first enable set it) and keeps the current
configuration at `IMP_CFG`. -/
theorem second_enable_overwrites (st : ImpedanceCheck) (ch : Nat)
    (hch1 : 1 ≤ ch) (hch8 : ch ≤ 8)
    (hlc : st.ch_cfg.length = 8) (hll : st.ch_last_cfg.length = 8)
    (_hsaved : st.ch_last_cfg.getD (ch - 1) none ≠ none) :
    (change_leadoff st ch true).1.ch_last_cfg.getD (ch - 1) none
        = some (st.ch_cfg.getD (ch - 1) STREAM_CFG_DEFAULT)
    ∧ (change_leadoff st ch true).1.ch_cfg.getD (ch - 1) STREAM_CFG_DEFAULT
        = IMP_CFG := by
  have hidx1 : ch - 1 < st.ch_cfg.length := by omega
  have hidx2 : ch - 1 < st.ch_last_cfg.length := by omega
  rw [change_leadoff_enable_eq]
  exact ⟨list_getD_set_self _ _ _ _ hidx2, list_getD_set_self _ _ _ _ hidx1⟩

/-- Witness for the amended C3 at the state after one enable of channel 1. -/
theorem second_enable_overwrites_witness :
    (change_leadoff (change_leadoff initImpedanceCheck 1 true).1 1
        true).1.ch_last_cfg.getD 0 none
      = some ((change_leadoff initImpedanceCheck 1 true).1.ch_cfg.getD 0
          STREAM_CFG_DEFAULT)
    ∧ (change_leadoff (change_leadoff initImpedanceCheck 1 true).1 1
        true).1.ch_cfg.getD 0 STREAM_CFG_DEFAULT = IMP_CFG :=
  second_enable_overwrites (change_leadoff initImpedanceCheck 1 true).1 1
    (by decide) (by decide) (by decide) (by decide) (by decide)

/-- C10: a double enable followed by a disable loses the original
configuration — after `change_leadoff(ch, True)` twice, the saved slot
holds `IMP_CFG` (the impedance config saved over the original), so the
subsequent `change_leadoff(ch, False)` restores `IMP_CFG` as the current
configuration, with the saved slot cleared. -/
theorem double_enable_loses_original (st : ImpedanceCheck) (ch : Nat)
    (hch1 : 1 ≤ ch) (hch8 : ch ≤ 8)
    (hlc : st.ch_cfg.length = 8) (hll : st.ch_last_cfg.length = 8) :
    (change_leadoff (change_leadoff st ch true).1 ch true).1.ch_last_cfg.getD
        (ch - 1) none = some IMP_CFG
    ∧ (change_leadoff (change_leadoff (change_leadoff st ch true).1 ch
        true).1 ch false).1.ch_cfg.getD (ch - 1) STREAM_CFG_DEFAULT = IMP_CFG
    ∧ (change_leadoff (change_leadoff (change_leadoff st ch true).1 ch
        true).1 ch false).1.ch_last_cfg.getD (ch - 1) none = none := by
  have hidx1 : ch - 1 < st.ch_cfg.length := by omega
  have hidx2 : ch - 1 < st.ch_last_cfg.length := by omega
  have e1 := change_leadoff_enable_eq st ch
  set st1 := (change_leadoff st ch true).1 with hst1
  have h1cfg : st1.ch_cfg.getD (ch - 1) STREAM_CFG_DEFAULT = IMP_CFG := by
    rw [e1]; exact list_getD_set_self _ _ _ _ hidx1
  have e2 := change_leadoff_enable_eq st1 ch
  set st2 := (change_leadoff st1 ch true).1 with hst2
  have h2len : st1.ch_last_cfg.length = st.ch_last_cfg.length := by
    rw [e1]; exact List.length_set _ _ _
  have h2saved : st2.ch_last_cfg.getD (ch - 1) none = some IMP_CFG := by
    rw [e2, h1cfg]
    exact list_getD_set_self _ _ _ _ (by omega)
  refine ⟨h2saved, ?_, ?_⟩
  · rw [change_leadoff_disable_of_saved st2 ch IMP_CFG h2saved]
    have : ch - 1 < st2.ch_cfg.length := by
      rw [e2, List.length_set, e1, List.length_set]; omega
    exact list_getD_set_self _ _ _ _ this
  · rw [change_leadoff_disable_of_saved st2 ch IMP_CFG h2saved]
    have : ch - 1 < st2.ch_last_cfg.length := by
      rw [e2, List.length_set]; omega
    exact list_getD_set_self _ _ _ _ this

/-- Witness for C10 at the initial tracker state and channel 2. -/
theorem double_enable_loses_original_witness :
    (change_leadoff (change_leadoff initImpedanceCheck 2 true).1 2
        true).1.ch_last_cfg.getD 1 none = some IMP_CFG
    ∧ (change_leadoff (change_leadoff (change_leadoff initImpedanceCheck 2
        true).1 2 true).1 2 false).1.ch_cfg.getD 1 STREAM_CFG_DEFAULT
      = IMP_CFG
    ∧ (change_leadoff (change_leadoff (change_leadoff initImpedanceCheck 2
        true).1 2 true).1 2 false).1.ch_last_cfg.getD 1 none = none :=
  double_enable_loses_original initImpedanceCheck 2 (by decide) (by decide)
    (by decide) (by decide)

end Cyton

namespace Cyton

/-- C4: `calc_impedance_from_vrms` computes exactly
`max(sqrt(2) * (v * 1e-6) / 6.0e-9 - 2200, 0)` for every non-negative
input; at `v = 10` the result is within 0.01 of 157.02 ohms, and at
`v = 0` it is floored to 0. -/
theorem calc_impedance_formula :
    (∀ v : ℝ, 0 ≤ v →
      calc_impedance_from_vrms v
        = max (Real.sqrt 2 * (v * 1e-6) / (6.0e-9) - 2200) 0)
    ∧ |calc_impedance_from_vrms 10 - 157.02| < 0.01
    ∧ calc_impedance_from_vrms 0 = 0 := by
  have h2 : Real.sqrt 2 ^ 2 = 2 := Real.sq_sqrt (by norm_num)
  have hnn : (0:ℝ) ≤ Real.sqrt 2 := Real.sqrt_nonneg 2
  have hlb : (1.414213 : ℝ) < Real.sqrt 2 := by nlinarith
  have hub : Real.sqrt 2 < 1.414214 := by nlinarith
  refine ⟨?_, ?_, ?_⟩
  · intro v _
    simp only [calc_impedance_from_vrms, I_DRIVE, SERIES_R]
  · have key : Real.sqrt 2 * ((10:ℝ) * 1e-6) / 6.0e-9
        = Real.sqrt 2 * (5000 / 3) := by
      field_simp
      ring
    simp only [calc_impedance_from_vrms, I_DRIVE, SERIES_R]
    rw [key]
    have hpos : (0:ℝ) ≤ Real.sqrt 2 * (5000 / 3) - 2200 := by nlinarith
    rw [max_eq_left hpos, abs_lt]
    constructor <;> nlinarith
  · simp only [calc_impedance_from_vrms, I_DRIVE, SERIES_R]
    norm_num

/-- Witness for the universally quantified formula of C4 at `v = 1`. -/
theorem calc_impedance_formula_witness :
    calc_impedance_from_vrms 1
      = max (Real.sqrt 2 * ((1:ℝ) * 1e-6) / (6.0e-9) - 2200) 0 :=
  calc_impedance_formula.1 1 (by norm_num)

/-- C8: `calc_impedance_from_vrms` is monotonically non-decreasing in its
argument and its value is never below 0. -/
theorem calc_impedance_monotone (v1 v2 : ℝ) (h : v1 ≤ v2) :
    calc_impedance_from_vrms v1 ≤ calc_impedance_from_vrms v2
    ∧ 0 ≤ calc_impedance_from_vrms v1 := by
  constructor
  · simp only [calc_impedance_from_vrms, I_DRIVE, SERIES_R]
    refine max_le_max (sub_le_sub_right ?_ _) le_rfl
    gcongr
  · exact le_max_right _ _

/-- Witness for C8 at `v1 = 0`, `v2 = 10`. -/
theorem calc_impedance_monotone_witness :
    calc_impedance_from_vrms 0 ≤ calc_impedance_from_vrms 10
    ∧ 0 ≤ calc_impedance_from_vrms 0 :=
  calc_impedance_monotone 0 10 (by norm_num)

/-- C9: a non-finite RMS estimate makes the tail of `check_impedance`
return NaN — the impedance formula branch is not taken, no exception is
raised, and the returned float is NaN. -/
theorem nonfinite_rms_gives_nan (v : PFloat) (h : v.isfinite = false) :
    check_impedance_result v = .nan := by
  cases v <;> simp_all [check_impedance_result, PFloat.isfinite]

/-- Witness for C9 at a NaN RMS estimate. -/
theorem nonfinite_rms_gives_nan_witness :
    check_impedance_result .nan = .nan :=
  nonfinite_rms_gives_nan .nan rfl

/-- C5 counterexample: `build_channel_settings_cmd` with the invalid
channel 0 and the invalid gain 7 does not fail — the source performs no
validation — and returns the formatted command string `"x0070110X"`. -/
theorem build_cmd_accepts_invalid :
    build_channel_settings_cmd 0 7 0 1 1 0 0 = "x0070110X" := by decide

/-- Any decimal digit renders as one character. -/
theorem nat_repr_digit_length : ∀ n : Nat, n < 10 → (Nat.repr n).length = 1 := by
  decide

/-- C5 amended: `build_channel_settings_cmd` performs no validation; for
all single-digit field values (valid or not) it returns the 9-character
string `x{ch}{power_down}{gain}{input_type}{bias}{srb2}{srb1}X`, never an
error. -/
theorem build_cmd_no_validation (ch gain input_type bias srb2 srb1 pd : Nat)
    (h1 : ch < 10) (h2 : gain < 10) (h3 : input_type < 10) (h4 : bias < 10)
    (h5 : srb2 < 10) (h6 : srb1 < 10) (h7 : pd < 10) :
    (build_channel_settings_cmd ch gain input_type bias srb2 srb1 pd).length
      = 9 := by
  simp [build_channel_settings_cmd, String.length_append,
    nat_repr_digit_length ch h1, nat_repr_digit_length gain h2,
    nat_repr_digit_length input_type h3, nat_repr_digit_length bias h4,
    nat_repr_digit_length srb2 h5, nat_repr_digit_length srb1 h6,
    nat_repr_digit_length pd h7]
  decide

/-- Witness for the amended C5 at the invalid channel 9 and gain 7. -/
theorem build_cmd_no_validation_witness :
    (build_channel_settings_cmd 9 7 0 1 1 0 0).length = 9 :=
  build_cmd_no_validation 9 7 0 1 1 0 0 (by decide) (by decide) (by decide)
    (by decide) (by decide) (by decide) (by decide)

/-- C6: the band-pass stage enforces a minimum-length precondition — an
input with at most `filt_padlen = 27` samples (three times the 9 filter
taps of the 4th-order band-pass) is rejected with `InsufficientSamples`,
and the filter only runs on longer inputs. -/
theorem bandpass_length_precondition (x : List ℝ) :
    (x.length ≤ filt_padlen →
      bandpass_check x = .error .insufficientSamples)
    ∧ (filt_padlen < x.length → bandpass_check x = .ok ()) := by
  constructor
  · intro h
    simp [bandpass_check, h]
  · intro h
    simp [bandpass_check, Nat.not_le_of_lt h]

/-- Witness for C6: 10 zero samples are rejected, 28 are accepted. -/
theorem bandpass_length_precondition_witness :
    bandpass_check (List.replicate 10 (0:ℝ)) = .error .insufficientSamples
    ∧ bandpass_check (List.replicate 28 (0:ℝ)) = .ok () :=
  ⟨(bandpass_length_precondition _).1
      (by simp [filt_padlen, filt_taps]),
   (bandpass_length_precondition _).2
      (by simp [filt_padlen, filt_taps])⟩

end Cyton

/-- C7: the two RMS estimators of the duplicated scripts are not the same
function — on the constant window `[1, 1]` (nonzero mean) the class-file
`take_recent_1s` (root mean square) returns 1 while the script-file
`take_recent_1s` (population standard deviation) returns 0. -/
theorem rms_estimators_diverge :
    ((([(1:ℝ), 1].sum) / (([(1:ℝ), 1].length : ℝ))) ≠ 0)
    ∧ Cyton.take_recent_1s [1, 1] 2 = 1
    ∧ CytonScript.take_recent_1s [1, 1] 2 = 0
    ∧ Cyton.take_recent_1s [1, 1] 2 ≠ CytonScript.take_recent_1s [1, 1] 2 := by
  have hrms : Cyton.take_recent_1s [1, 1] 2 = 1 := by
    simp [Cyton.take_recent_1s, Cyton.recent_slice]
  have hstd : CytonScript.take_recent_1s [1, 1] 2 = 0 := by
    simp [CytonScript.take_recent_1s, Cyton.recent_slice]
  refine ⟨by norm_num, hrms, hstd, ?_⟩
  rw [hrms, hstd]
  norm_num
